import Mathlib

/-!
Verification of the "accept interfaces, return structs" service/store pair
from the golang-notebook repository (package `service` in
`service/service.go`, package `db` in `db/db.go`, and the example wiring in
`main.go`).

Modelling conventions for the shallow embedding of the Go code:

* Go errors are interface values that are either `nil` or carry an error;
  they are modelled as `Option String` (`none` = `nil`, `some msg` = a
  non-nil error carrying `msg`).
* A store implementation (anything satisfying the Go interface
  `UserStorer`) is modelled as a record of state-passing functions over an
  abstract receiver-state type `σ`.  A method that in Go mutates its
  receiver through a pointer receiver instead returns the updated state.
* The opaque `interface{}` argument of `Insert` is modelled by `GoValue`:
  in the repository it is only ever instantiated with a `*User` (the
  pointer-taking version of `CreateUser`) or a `User` value (the
  value-taking version), so those are its two constructors.  A `*User` is
  `Option User` (`none` = nil pointer).
* A store method receiving a `*User` may write through that pointer; this
  heap effect is modelled by an extra `Option User` result component: the
  value written through the pointer, or `none` when the store does not
  write.  Writing through a nil pointer has no target, so the caller-side
  record is updated only when the pointer was non-nil.
* `context.Context` carries no information used by any code here; it is
  modelled as a unit-like type.
-/

/-- Go `context.Context`; no code in the repository reads it. -/
structure Context where

/-- Go `context.Background()`. -/
def Context.background : Context := {}

/-- The domain record `service.User` with fields `ID` and `Email`. -/
structure User where
  ID : String
  Email : String
deriving DecidableEq, Repr

/-- The Go zero value of `User` (`var user User`). -/
def User.zero : User := { ID := "", Email := "" }

/-- An opaque `interface{}` value as actually passed to `Insert` in this
repository: either a `*User` (possibly nil) or a `User` value. -/
inductive GoValue where
  | userPtr : Option User → GoValue
  | userVal : User → GoValue
deriving DecidableEq, Repr

/-- The Go interface `service.UserStorer` over receiver-state `σ`:

```
type UserStorer interface {
    Insert(item interface{}) error
    Get(id string, val interface{}) error
}
```

`Insert` yields `(new state, value written through the item pointer if the
item was a `*User` the store wrote through, error)`.  `Get` yields
`(new state, value written through the caller's output slot, error)`; the
service only ever passes a fresh `*User` as the output slot, so the slot
argument itself carries no information and is left implicit. -/
structure UserStorer (σ : Type) where
  Insert : σ → GoValue → σ × Option User × Option String
  Get : σ → String → σ × Option User × Option String

/-- The struct `service.UserService` holding the injected store; it has no
other field. -/
structure UserService (σ : Type) where
  store : UserStorer σ

/-- Go `service.NewUserService`:

```
func NewUserService(s UserStorer) *UserService {
    return &UserService{ store: s }
}
``` -/
def NewUserService (s : UserStorer σ) : UserService σ :=
  { store := s }

/-- Go `(*UserService).CreateUser`, the pointer-taking version from
`service/service.go`:

```
func (u *UserService) CreateUser(ctx context.Context, user *User) error {
    err := u.store.Insert(user)
    if err != nil {
        return err
    }
    return nil
}
```

The result is `(receiver after the call, store state after the call,
caller's record after the call, returned error)`.  The body assigns no
field of the receiver, so the receiver is returned unchanged; the caller's
record changes only if the store wrote through the (non-nil) pointer. -/
def UserService.CreateUser (svc : UserService σ) (state : σ) (ctx : Context)
    (user : Option User) : UserService σ × σ × Option User × Option String :=
  let r := svc.store.Insert state (GoValue.userPtr user)
  let userAfter := match r.2.1 with
    | some w => user.map (fun _ => w)
    | none => user
  match r.2.2 with
  | some e => (svc, r.1, userAfter, some e)
  | none => (svc, r.1, userAfter, none)

/-- Go `(*UserService).CreateUser`, the value-taking variant shown in the
notebook page (`part_001`):

```
func (u *UserService) CreateUser(ctx context.Context, user User) error {
    err := u.store.Insert(user)
    if err != nil {
        return err
    }
    return nil
}
```

Named `CreateUserByValue` here because Lean cannot overload the Go name.
The record is passed to the store boxed by value, so the caller's copy can
never be written through; it is returned unchanged. -/
def UserService.CreateUserByValue (svc : UserService σ) (state : σ)
    (ctx : Context) (user : User) : UserService σ × σ × User × Option String :=
  let r := svc.store.Insert state (GoValue.userVal user)
  match r.2.2 with
  | some e => (svc, r.1, user, some e)
  | none => (svc, r.1, user, none)

/-- Go `(*UserService).RetrieveUser`:

```
func (u *UserService) RetrieveUser(ctx context.Context, id string) (interface{}, error) {
    var user User
    err := u.store.Get(id, &user)
    if err != nil {
        return nil, err
    }
    return user, nil
}
```

The result is `(receiver after the call, store state after the call,
returned record, returned error)`.  The returned `interface{}` is modelled
as `Option User` (`none` = nil interface).  The fresh output slot starts at
the Go zero value of `User`; after the call it holds whatever `Get` wrote,
or still the zero value when `Get` wrote nothing. -/
def UserService.RetrieveUser (svc : UserService σ) (state : σ) (ctx : Context)
    (id : String) : UserService σ × σ × Option User × Option String :=
  let slot := User.zero
  let r := svc.store.Get state id
  let slotAfter := match r.2.1 with
    | some w => w
    | none => slot
  match r.2.2 with
  | some e => (svc, r.1, none, some e)
  | none => (svc, r.1, some slotAfter, none)

/-- The opaque handle `*sql.DB`; the stub only stores it and never calls
anything on it. -/
structure SqlDB where
deriving DecidableEq

/-- The struct `db.Store`:

```
type Store struct {
    db *sql.DB
}
``` -/
structure Store where
  db : SqlDB
deriving DecidableEq

/-- Go `db.NewDB`:

```
func NewDB() *Store {
    return &Store{ db: &sql.DB{} }
}
``` -/
def NewDB : Store := { db := {} }

/-- Go `(*Store).Insert`:

```
func (s *Store) Insert(item interface{}) error {
    //... to-do
    return nil
}
```

It touches nothing and returns nil: state unchanged, no write through the
item, nil error. -/
def Store.Insert (s : Store) (item : GoValue) : Store × Option User × Option String :=
  (s, none, none)

/-- Go `(*Store).Get`:

```
func (s *Store) Get(id string, val interface{}) error {
    //... to-do
    return nil
}
```

It touches nothing and returns nil: state unchanged, nothing written to the
caller's output slot, nil error. -/
def Store.Get (s : Store) (id : String) : Store × Option User × Option String :=
  (s, none, none)

/-- The implicit Go fact that `*Store` satisfies `UserStorer`, packaging the
two stub methods. -/
def Store.asUserStorer : UserStorer Store :=
  { Insert := Store.Insert, Get := Store.Get }

/-- One service call, for iterating the service operations (used to state
that repeated calls keep the same store bound). -/
inductive ServiceOp where
  | create : Option User → ServiceOp
  | retrieve : String → ServiceOp

/-- Run a sequence of service operations, threading the receiver and the
store state exactly as the Go calls do. -/
def runOps (svc : UserService σ) (state : σ) : List ServiceOp → UserService σ × σ
  | [] => (svc, state)
  | ServiceOp.create u :: rest =>
      let r := svc.CreateUser state Context.background u
      runOps r.1 r.2.1 rest
  | ServiceOp.retrieve id :: rest =>
      let r := svc.RetrieveUser state Context.background id
      runOps r.1 r.2.1 rest

/-- The observable outcome of the example wiring in `main.go`: how many
create calls it issues, whether the error branch printed, the error of the
create call, and the caller's record afterwards. -/
structure WiringResult where
  createCalls : Nat
  errorPrinted : Bool
  err : Option String
  finalUser : Option User
deriving DecidableEq

/-- Go `main` from the example wiring:

```
func main() {
    ctx := context.Background()
    store := db.NewDB()
    useService := service.NewUserService(store)
    user := &service.User{}
    if err := useService.CreateUser(ctx, user); err != nil {
        fmt.Println(fmt.Errorf("error: %s", err))
    }
    fmt.Println(fmt.Printf("User created: %+v", user))
}
```

The initial record is taken as a parameter so the spec's scenario record
can be supplied; `main` itself binds the zero record, i.e. `main` is
`mainWiring User.zero`.  The wiring issues exactly one create call, and
prints error text exactly when that call returned a non-nil error. -/
def mainWiring (u : User) : WiringResult :=
  let ctx := Context.background
  let store := NewDB
  let useService := NewUserService Store.asUserStorer
  let r := useService.CreateUser store ctx (some u)
  { createCalls := 1
  , errorPrinted := (r.2.2.2).isSome
  , err := r.2.2.2
  , finalUser := r.2.2.1 }

/-- C1: for every store implementation and every user record, `CreateUser`
returns exactly the error value returned by the store's `Insert`, unchanged
and unwrapped; in particular it returns nil if and only if `Insert`
returned nil, so against a store whose insert never fails it returns no
error. -/
theorem createUser_propagates_insert_error (σ : Type) (st : UserStorer σ)
    (state : σ) (u : Option User) :
    ((NewUserService st).CreateUser state Context.background u).2.2.2 =
      (st.Insert state (GoValue.userPtr u)).2.2 := by
  unfold UserService.CreateUser NewUserService
  cases h : (st.Insert state (GoValue.userPtr u)).2.2 <;> simp [h]

/-- C2: for every store implementation and every identifier, `RetrieveUser`
allocates a fresh zero-valued output slot and delegates to the store's
`Get`; on a non-nil error it returns no record and that same error
unchanged, and on a nil error it returns the contents of the slot (what
`Get` wrote, or the untouched zero value) with a nil error.  The store
state after the call is exactly the state `Get` left. -/
theorem retrieveUser_delegates_get (σ : Type) (st : UserStorer σ)
    (state : σ) (id : String) :
    ((NewUserService st).RetrieveUser state Context.background id).2.1 =
        (st.Get state id).1
    ∧ ((NewUserService st).RetrieveUser state Context.background id).2.2 =
        (match (st.Get state id).2.2 with
          | some e => ((none : Option User), some e)
          | none =>
            (some (match (st.Get state id).2.1 with
              | some w => w
              | none => User.zero), (none : Option String))) := by
  unfold UserService.RetrieveUser NewUserService
  cases h : (st.Get state id).2.2 <;> simp [h]

/-- C3 evaluation: the stub store holds no records, yet `Store.Get` on the
identifier "missing" reports success (nil error) and writes nothing to the
caller's output slot, contradicting the requirement that a fetch for an
absent record must fail. -/
theorem store_get_missing_reports_success :
    Store.Get NewDB "missing" = (NewDB, none, none) := rfl

/-- C4: the illustrative store is a pure no-op stub: for every state, item
and identifier, `Insert` returns nil with no state change and no write
through the item, and `Get` returns nil with no state change and no write
to the output slot. -/
theorem store_stub_is_noop (s : Store) (item : GoValue) (id : String) :
    Store.Insert s item = (s, none, none)
    ∧ Store.Get s id = (s, none, none) :=
  ⟨rfl, rfl⟩

/-- C5: `NewUserService s` binds exactly `s` as the service's store field,
and an arbitrary sequence of service operations never changes that field:
the same store instance stays bound across arbitrarily many repeated
calls. -/
theorem service_store_stable (σ : Type) (st : UserStorer σ) (state : σ)
    (ops : List ServiceOp) :
    (NewUserService st).store = st
    ∧ (runOps (NewUserService st) state ops).1.store = st := by
  refine ⟨rfl, ?_⟩
  induction ops generalizing state with
  | nil => rfl
  | cons op rest ih =>
    cases op with
    | create u =>
      show (runOps _ _ _).1.store = st
      unfold runOps UserService.CreateUser
      cases h : ((NewUserService st).store.Insert state (GoValue.userPtr u)).2.2 <;>
        simp [h] <;> exact ih _
    | retrieve id =>
      show (runOps _ _ _).1.store = st
      unfold runOps UserService.RetrieveUser
      cases h : ((NewUserService st).store.Get state id).2.2 <;>
        simp [h] <;> exact ih _

/-- C6: against the no-op stub store, the pointer-taking and value-taking
versions of `CreateUser` are observationally equivalent: for every input
record both return the same nil error, both leave the store state
untouched, and both leave the caller's record exactly as it was. -/
theorem create_ptr_val_equivalent_on_stub (state : Store) (u : User) :
    ((NewUserService Store.asUserStorer).CreateUser state Context.background
        (some u)).2.2.2 =
      ((NewUserService Store.asUserStorer).CreateUserByValue state
        Context.background u).2.2.2
    ∧ ((NewUserService Store.asUserStorer).CreateUser state Context.background
        (some u)).2.2.2 = none
    ∧ ((NewUserService Store.asUserStorer).CreateUser state Context.background
        (some u)).2.1 = state
    ∧ ((NewUserService Store.asUserStorer).CreateUserByValue state
        Context.background u).2.1 = state
    ∧ ((NewUserService Store.asUserStorer).CreateUser state Context.background
        (some u)).2.2.1 = some u
    ∧ ((NewUserService Store.asUserStorer).CreateUserByValue state
        Context.background u).2.2.1 = u :=
  ⟨rfl, rfl, rfl, rfl, rfl, rfl⟩

/-- C7: the example wiring run with the record `{id: "1",
email: "a@example.com"}` against the always-succeeding stub store performs
exactly one create call, that call succeeds with a nil error, the
error-printing branch is not taken, and the record is left intact. -/
theorem wiring_scenario_succeeds :
    mainWiring { ID := "1", Email := "a@example.com" } =
      { createCalls := 1, errorPrinted := false, err := none,
        finalUser := some { ID := "1", Email := "a@example.com" } } := rfl

/-- C8: for every store implementation and identifier, `RetrieveUser`
returns a nil record exactly when it returns a non-nil error; on success
the returned record is always a concrete `User` value, even if the store
never wrote to the output slot. -/
theorem retrieveUser_record_iff_success (σ : Type) (st : UserStorer σ)
    (state : σ) (id : String) :
    (((NewUserService st).RetrieveUser state Context.background id).2.2.1).isNone =
      (((NewUserService st).RetrieveUser state Context.background id).2.2.2).isSome := by
  unfold UserService.RetrieveUser NewUserService
  cases h : (st.Get state id).2.2 <;> simp [h]

/-- C9: against the no-op stub store, `CreateUser` leaves the
caller-supplied record completely unchanged: the record (nil pointer
included) after the call is exactly the record before it. -/
theorem createUser_preserves_user_on_stub (state : Store) (u : Option User) :
    ((NewUserService Store.asUserStorer).CreateUser state Context.background
        u).2.2.1 = u := rfl

/-- C10: `CreateUser` only forwards the user pointer opaquely, so calling it
with a nil user record against the no-op stub store completes (the
embedding is a total function: no dereference occurs anywhere on this
path) and returns a nil error with everything unchanged. -/
theorem createUser_nil_pointer_safe (state : Store) :
    ((NewUserService Store.asUserStorer).CreateUser state Context.background
        none) =
      (NewUserService Store.asUserStorer, state, none, none) := rfl
